import Mathlib

/-!
Verification of the ESP32 pH-monitor calibration firmware.

The development shallowly embeds the signal-conditioning and calibration
engine of the firmware.  C++ `float` values are modelled as exact rationals
(`ℚ`); the NVS `Preferences` key-value store is modelled as a record of
`Option` fields (a `none` field means the key is absent so a `get` falls
back to its default argument); the mutable globals of each sketch are
gathered into a `Globals` record and each operation is a function on it.

Two namespaces follow the two model shapes found in the repository:
* `TwoPage` embeds `linear_ph_twopage.ino` (one-line / two-line piecewise
  linear model).  The file `unnamed/part_000` contains textually identical
  definitions of `calculatePH_piecewise`, `saveOneLine`, `saveTwoLines` and
  `loadCalibration`, so the `TwoPage` embedding covers it as well.
* `Quad` embeds `unnamed/part_001` (linear / quadratic model with a
  three-point Lagrange fit).
-/

namespace PHFirmware

/-- Reference pH of the pH-7 buffer (`static const float PH7 = 7.00f`). -/
def PH7 : ℚ := 7

/-- Reference pH of the pH-4 buffer (`static const float PH4 = 4.01f`). -/
def PH4 : ℚ := 401/100

/-- Reference pH of the pH-9 buffer (`static const float PH9 = 9.18f`). -/
def PH9 : ℚ := 459/50

/-- IIR smoothing constant (`const float MAIN_ALPHA = 0.15f`). -/
def MAIN_ALPHA : ℚ := 3/20

/-- Error kinds of the fit operations, per the specification's error
taxonomy.  The HTTP handlers report them as distinct 400-responses:
"Voltages must be > 0" is `InvalidInput`, "too close" is `DegenerateFit`,
"Could not solve quadratic" is `SingularFit`, a missing query argument is
`MissingArgument`. -/
inductive FitError : Type where
  | MissingArgument : FitError
  | InvalidInput : FitError
  | DegenerateFit : FitError
  | SingularFit : FitError
  deriving DecidableEq

/-- Outcome of a calibration request handler: success or a typed failure. -/
inductive CalResp : Type where
  | ok : CalResp
  | err : FitError → CalResp
  deriving DecidableEq

namespace TwoPage

/-- The calibration globals of `linear_ph_twopage.ino`: discriminant
`useTwoLines`, direction flag `typicalDirection`, breakpoint `v7_break`
and the two line coefficient pairs. -/
structure CalState : Type where
  useTwoLines : Bool
  typicalDirection : Bool
  v7_break : ℚ
  mLow : ℚ
  bLow : ℚ
  mHigh : ℚ
  bHigh : ℚ
  deriving DecidableEq

/-- The persistent key-value store (NVS namespace "phcal") of the linear
variant; `none` models an absent key. -/
structure Store : Type where
  two : Option Bool
  typ : Option Bool
  v7 : Option ℚ
  mL : Option ℚ
  bL : Option ℚ
  mH : Option ℚ
  bH : Option ℚ
  deriving DecidableEq

/-- All mutable global state of the sketch that the claims mention:
the in-memory calibration, the persistent store, and the main-page
smoother state (`filtV_main`, with `none` modelling the `NAN` sentinel). -/
structure Globals : Type where
  cal : CalState
  store : Store
  filtV_main : Option ℚ
  deriving DecidableEq

/-- Built-in default calibration coefficients from the global
initialisers (`v7_break = 2.100f`, `mLow = -2.49f`, `bLow = 10.4725f`,
same for the high line). -/
def initCal : CalState :=
  { useTwoLines := false
    typicalDirection := true
    v7_break := 21/10
    mLow := -249/100
    bLow := 4189/400
    mHigh := -249/100
    bHigh := 4189/400 }

/-- Fresh-boot globals: default coefficients, empty store, smoother unseeded. -/
def initGlobals : Globals :=
  { cal := initCal
    store := { two := none, typ := none, v7 := none, mL := none,
               bL := none, mH := none, bH := none }
    filtV_main := none }

/-- `loadCalibration()`: reads every key from the store, each absent key
falling back to its default (`false` / `true` for the bools, the current
global value for the floats). -/
def loadCalibration (g : Globals) : Globals :=
  { g with cal :=
    { useTwoLines := g.store.two.getD false
      typicalDirection := g.store.typ.getD true
      v7_break := g.store.v7.getD g.cal.v7_break
      mLow := g.store.mL.getD g.cal.mLow
      bLow := g.store.bL.getD g.cal.bLow
      mHigh := g.store.mH.getD g.cal.mHigh
      bHigh := g.store.bH.getD g.cal.bHigh } }

/-- `saveOneLine(V4, V7)`: fits one line through `(V4, PH4)` and
`(V7, PH7)`, writes all seven keys to the store, mirrors them into the
globals, and resets the smoother (`filtV_main = NAN`). -/
def saveOneLine (V4 V7 : ℚ) (_g : Globals) : Globals :=
  let m := (PH4 - PH7) / (V4 - V7)
  let b := PH7 - m * V7
  { cal := { useTwoLines := false
             typicalDirection := decide (V7 < V4)
             v7_break := V7
             mLow := m, bLow := b, mHigh := m, bHigh := b }
    store := { two := some false
               typ := some (decide (V7 < V4))
               v7 := some V7
               mL := some m, bL := some b, mH := some m, bH := some b }
    filtV_main := none }

/-- `saveTwoLines(V4, V7, V9)`: fits the low line through `(V4, PH4)` and
`(V7, PH7)` and the high line through `(V7, PH7)` and `(V9, PH9)`, writes
all seven keys, mirrors them into the globals, and resets the smoother. -/
def saveTwoLines (V4 V7 V9 : ℚ) (_g : Globals) : Globals :=
  let mL := (PH4 - PH7) / (V4 - V7)
  let bL := PH7 - mL * V7
  let mH := (PH7 - PH9) / (V7 - V9)
  let bH := PH7 - mH * V7
  { cal := { useTwoLines := true
             typicalDirection := decide (V7 < V4)
             v7_break := V7
             mLow := mL, bLow := bL, mHigh := mH, bHigh := bH }
    store := { two := some true
               typ := some (decide (V7 < V4))
               v7 := some V7
               mL := some mL, bL := some bL, mH := some mH, bH := some bH }
    filtV_main := none }

/-- `calculatePH_piecewise(v)`: one line if `useTwoLines` is false;
otherwise the stored `typicalDirection` flag picks the comparison —
typical: `v >= v7_break` selects the low line; inverted: `v <= v7_break`
selects the low line.  (Identical code appears in `unnamed/part_000`,
lines 121–133.) -/
def calculatePH_piecewise (c : CalState) (v : ℚ) : ℚ :=
  if c.useTwoLines = false then c.mLow * v + c.bLow
  else if c.typicalDirection then
    if c.v7_break ≤ v then c.mLow * v + c.bLow else c.mHigh * v + c.bHigh
  else
    if v ≤ c.v7_break then c.mLow * v + c.bLow else c.mHigh * v + c.bHigh

/-- `handleSetCal2` (arguments already parsed): rejects a non-positive
voltage, then a pair closer than 0.01 V, otherwise saves the one-line fit. -/
def handleSetCal2 (V4 V7 : ℚ) (g : Globals) : CalResp × Globals :=
  if V4 ≤ 0 ∨ V7 ≤ 0 then (CalResp.err FitError.InvalidInput, g)
  else if |V4 - V7| < 1/100 then (CalResp.err FitError.DegenerateFit, g)
  else (CalResp.ok, saveOneLine V4 V7 g)

/-- `handleSetCal3` (arguments already parsed): rejects a non-positive
voltage, then any pair closer than 0.01 V, otherwise saves the two-line fit. -/
def handleSetCal3 (V4 V7 V9 : ℚ) (g : Globals) : CalResp × Globals :=
  if V4 ≤ 0 ∨ V7 ≤ 0 ∨ V9 ≤ 0 then (CalResp.err FitError.InvalidInput, g)
  else if |V4 - V7| < 1/100 ∨ |V9 - V7| < 1/100 ∨ |V9 - V4| < 1/100 then
    (CalResp.err FitError.DegenerateFit, g)
  else (CalResp.ok, saveTwoLines V4 V7 V9 g)

/-- One iteration of the sampling loop of `readVoltageRawTrimmed`
(INA226 build): accumulate the sum and track the running min and max. -/
def trimStep (acc : ℚ × ℚ × ℚ) (a : ℚ) : ℚ × ℚ × ℚ :=
  (acc.1 + a,
   if a < acc.2.1 then a else acc.2.1,
   if acc.2.2 < a then a else acc.2.2)

/-- `readVoltageRawTrimmed()` generalised over the sequence of raw
readings the sensor source returns (the sketch draws a fixed `N = 20`):
running sum with min/max tracking from the sentinels `1e9` / `-1e9`,
then `(sum - mn - mx) / (N - 2)`. -/
def readVoltageRawTrimmed (readings : List ℚ) : ℚ :=
  let r := readings.foldl trimStep (0, 1000000000, -1000000000)
  (r.1 - r.2.1 - r.2.2) / ((readings.length : ℚ) - 2)

/-- The smoothing step of `readVoltageMainSmoothed`: seed on first use
(`if (isnan(filtV_main)) filtV_main = v`), then the single-pole IIR
update; returns the output together with the new smoother state. -/
def smootherUpdate (filt : Option ℚ) (v : ℚ) : ℚ × Option ℚ :=
  let f0 := filt.getD v
  let f1 := f0 + MAIN_ALPHA * (v - f0)
  (f1, some f1)

/-- `readVoltageMainSmoothed()`: trimmed-mean sample followed by the IIR
smoother. -/
def readVoltageMainSmoothed (readings : List ℚ) (filt : Option ℚ) :
    ℚ × Option ℚ :=
  smootherUpdate filt (readVoltageRawTrimmed readings)

/-- Minimum value of a list of rationals (spec-side notion used to state
the trimmed-mean property; `0` for the empty list). -/
def listMin : List ℚ → ℚ
  | [] => 0
  | a :: t => t.foldl min a

/-- Maximum value of a list of rationals (spec-side notion used to state
the trimmed-mean property; `0` for the empty list). -/
def listMax : List ℚ → ℚ
  | [] => 0
  | a :: t => t.foldl max a

end TwoPage

namespace Quad

/-- The calibration globals of `unnamed/part_001`: discriminant
`useQuadratic`, the linear pair `linM`/`linB` and the quadratic triple
`qa`/`qb`/`qc`. -/
structure CalState : Type where
  useQuadratic : Bool
  linM : ℚ
  linB : ℚ
  qa : ℚ
  qb : ℚ
  qc : ℚ
  deriving DecidableEq

/-- The persistent key-value store of the quadratic variant. -/
structure Store : Type where
  quad : Option Bool
  m : Option ℚ
  b : Option ℚ
  qa : Option ℚ
  qb : Option ℚ
  qc : Option ℚ
  deriving DecidableEq

/-- Mutable global state of the quadratic-variant sketch. -/
structure Globals : Type where
  cal : CalState
  store : Store
  filtV : Option ℚ
  deriving DecidableEq

/-- Built-in defaults (`linM = -2.49f`, `linB = 10.4725f`, `qa = 0`,
`qb = -2.49f`, `qc = 10.4725f`). -/
def initCal : CalState :=
  { useQuadratic := false
    linM := -249/100
    linB := 4189/400
    qa := 0
    qb := -249/100
    qc := 4189/400 }

/-- Fresh-boot globals for the quadratic variant. -/
def initGlobals : Globals :=
  { cal := initCal
    store := { quad := none, m := none, b := none,
               qa := none, qb := none, qc := none }
    filtV := none }

/-- `solveQuadraticFrom3Points`: Lagrange interpolation through the three
points, rejected (`none`, which the handler reports as `SingularFit`)
when any denominator is within `1e-9` of zero. -/
def solveQuadraticFrom3Points (x1 y1 x2 y2 x3 y3 : ℚ) :
    Option (ℚ × ℚ × ℚ) :=
  let d1 := (x1 - x2) * (x1 - x3)
  let d2 := (x2 - x1) * (x2 - x3)
  let d3 := (x3 - x1) * (x3 - x2)
  if |d1| < 1/1000000000 ∨ |d2| < 1/1000000000 ∨ |d3| < 1/1000000000 then
    none
  else
    let A1 := y1 / d1
    let A2 := y2 / d2
    let A3 := y3 / d3
    some (A1 + A2 + A3,
          -(A1*(x2+x3) + A2*(x1+x3) + A3*(x1+x2)),
          A1*(x2*x3) + A2*(x1*x3) + A3*(x1*x2))

/-- `calculatePH(v)`: the quadratic polynomial when `useQuadratic`,
otherwise the stored line. -/
def calculatePH (c : CalState) (v : ℚ) : ℚ :=
  if c.useQuadratic then c.qa * v * v + c.qb * v + c.qc
  else c.linM * v + c.linB

/-- `saveLinear(m, b)`: persists `quad = false`, `m`, `b` (only), updates
the in-memory linear pair and resets the smoother. -/
def saveLinear (m b : ℚ) (g : Globals) : Globals :=
  { cal := { g.cal with useQuadratic := false, linM := m, linB := b }
    store := { g.store with quad := some false, m := some m, b := some b }
    filtV := none }

/-- `saveQuadratic(a, b, c)`: persists `quad = true`, `qa`, `qb`, `qc`
(only), updates the in-memory triple and resets the smoother. -/
def saveQuadratic (a b c : ℚ) (g : Globals) : Globals :=
  { cal := { g.cal with useQuadratic := true, qa := a, qb := b, qc := c }
    store := { g.store with
               quad := some true, qa := some a, qb := some b, qc := some c }
    filtV := none }

/-- `loadCalibration()` of the quadratic variant. -/
def loadCalibration (g : Globals) : Globals :=
  { g with cal :=
    { useQuadratic := g.store.quad.getD false
      linM := g.store.m.getD g.cal.linM
      linB := g.store.b.getD g.cal.linB
      qa := g.store.qa.getD g.cal.qa
      qb := g.store.qb.getD g.cal.qb
      qc := g.store.qc.getD g.cal.qc } }

/-- `handleSetCal2` of the quadratic variant: validation, then the
two-point line fit, then `saveLinear`. -/
def handleSetCal2 (v4 v7 : ℚ) (g : Globals) : CalResp × Globals :=
  if v7 ≤ 0 ∨ v4 ≤ 0 then (CalResp.err FitError.InvalidInput, g)
  else if |v4 - v7| < 1/100 then (CalResp.err FitError.DegenerateFit, g)
  else
    let m := (PH4 - PH7) / (v4 - v7)
    let b := PH7 - m * v7
    (CalResp.ok, saveLinear m b g)

/-- `handleSetCal3` of the quadratic variant: validation (non-positive
voltages, then any pair closer than 0.01 V), then the Lagrange solve
(`none` reported as `SingularFit`), then `saveQuadratic`. -/
def handleSetCal3 (v4 v7 v9 : ℚ) (g : Globals) : CalResp × Globals :=
  if v7 ≤ 0 ∨ v4 ≤ 0 ∨ v9 ≤ 0 then (CalResp.err FitError.InvalidInput, g)
  else if |v4 - v7| < 1/100 ∨ |v9 - v7| < 1/100 ∨ |v9 - v4| < 1/100 then
    (CalResp.err FitError.DegenerateFit, g)
  else
    match solveQuadraticFrom3Points v4 PH4 v7 PH7 v9 PH9 with
    | none => (CalResp.err FitError.SingularFit, g)
    | some (a, b, c) => (CalResp.ok, saveQuadratic a b c g)

end Quad

end PHFirmware

namespace PHFirmware

/-- C6: Round-trip: for every model of every variant, saving (which
persists the discriminant, direction flag, breakpoint and every
coefficient of the model) followed immediately by `loadCalibration`
reproduces the active model exactly: the full seven-field state for the
one-line and two-line saves of the linear variant, and the discriminant
plus all coefficients of the saved model for the linear and quadratic
saves of the quadratic variant. -/
theorem c6_persist_load_roundtrip (V4 V7 W4 W7 W9 m b a bq cq : ℚ)
    (g h : TwoPage.Globals) (gq hq : Quad.Globals) :
    (TwoPage.loadCalibration (TwoPage.saveOneLine V4 V7 g)).cal =
      (TwoPage.saveOneLine V4 V7 g).cal ∧
    (TwoPage.loadCalibration (TwoPage.saveTwoLines W4 W7 W9 h)).cal =
      (TwoPage.saveTwoLines W4 W7 W9 h).cal ∧
    ((Quad.loadCalibration (Quad.saveLinear m b gq)).cal.useQuadratic = false ∧
     (Quad.loadCalibration (Quad.saveLinear m b gq)).cal.linM = m ∧
     (Quad.loadCalibration (Quad.saveLinear m b gq)).cal.linB = b) ∧
    ((Quad.loadCalibration (Quad.saveQuadratic a bq cq hq)).cal.useQuadratic = true ∧
     (Quad.loadCalibration (Quad.saveQuadratic a bq cq hq)).cal.qa = a ∧
     (Quad.loadCalibration (Quad.saveQuadratic a bq cq hq)).cal.qb = bq ∧
     (Quad.loadCalibration (Quad.saveQuadratic a bq cq hq)).cal.qc = cq) :=
  ⟨rfl, rfl, ⟨rfl, rfl, rfl⟩, ⟨rfl, rfl, rfl, rfl⟩⟩

/-- C10: in a two-line model, evaluating exactly at the breakpoint
voltage selects the low segment in both orientations: the typical
orientation uses `v7_break ≤ v` for the low segment and the inverted
orientation uses `v ≤ v7_break` for the low segment, so at
`v = v7_break` both pick the low line. -/
theorem c10_breakpoint_selects_low (c : TwoPage.CalState) (v : ℚ)
    (h : c.useTwoLines = true) :
    TwoPage.calculatePH_piecewise c c.v7_break =
      c.mLow * c.v7_break + c.bLow ∧
    (c.typicalDirection = true → c.v7_break ≤ v →
      TwoPage.calculatePH_piecewise c v = c.mLow * v + c.bLow) ∧
    (c.typicalDirection = false → v ≤ c.v7_break →
      TwoPage.calculatePH_piecewise c v = c.mLow * v + c.bLow) := by
  unfold TwoPage.calculatePH_piecewise
  refine ⟨?_, ?_, ?_⟩
  · by_cases htyp : c.typicalDirection <;> simp [h, htyp]
  · intro htyp hle
    simp [h, htyp, hle]
  · intro htyp hle
    simp [h, htyp, hle]

/-- C10 witness: a concrete two-line model with distinct segments,
evaluated at its breakpoint, in both orientations. -/
theorem c10_breakpoint_selects_low_witness :
    TwoPage.calculatePH_piecewise
      { useTwoLines := true, typicalDirection := true, v7_break := 2,
        mLow := 1, bLow := 0, mHigh := 5, bHigh := 1 } 2 = 1 * 2 + 0 ∧
    TwoPage.calculatePH_piecewise
      { useTwoLines := true, typicalDirection := false, v7_break := 2,
        mLow := 1, bLow := 0, mHigh := 5, bHigh := 1 } 2 = 1 * 2 + 0 :=
  ⟨(c10_breakpoint_selects_low
      { useTwoLines := true, typicalDirection := true, v7_break := 2,
        mLow := 1, bLow := 0, mHigh := 5, bHigh := 1 } 0 rfl).1,
   (c10_breakpoint_selects_low
      { useTwoLines := true, typicalDirection := false, v7_break := 2,
        mLow := 1, bLow := 0, mHigh := 5, bHigh := 1 } 0 rfl).1⟩

/-- C1: a model built by `saveTwoLines` is a two-line model whose stored
`typicalDirection` flag records `V4 > V7`; when the flag is typical
(`V7 < V4`), `calculatePH_piecewise` routes `v ≥ v7_break` to the low
segment and `v < v7_break` to the high segment; when inverted
(`V4 < V7`), the comparison flips: `v ≤ v7_break` goes to the low
segment and `v > v7_break` to the high segment, i.e. the routing off the
breakpoint swaps sides, and it is determined solely by the stored flag. -/
theorem c1_direction_routing (V4 V7 V9 v : ℚ) (g : TwoPage.Globals) :
    (TwoPage.saveTwoLines V4 V7 V9 g).cal.useTwoLines = true ∧
    (TwoPage.saveTwoLines V4 V7 V9 g).cal.typicalDirection =
      decide (V7 < V4) ∧
    (V7 < V4 →
      (V7 ≤ v →
        TwoPage.calculatePH_piecewise (TwoPage.saveTwoLines V4 V7 V9 g).cal v =
          (TwoPage.saveTwoLines V4 V7 V9 g).cal.mLow * v +
            (TwoPage.saveTwoLines V4 V7 V9 g).cal.bLow) ∧
      (v < V7 →
        TwoPage.calculatePH_piecewise (TwoPage.saveTwoLines V4 V7 V9 g).cal v =
          (TwoPage.saveTwoLines V4 V7 V9 g).cal.mHigh * v +
            (TwoPage.saveTwoLines V4 V7 V9 g).cal.bHigh)) ∧
    (V4 < V7 →
      (v ≤ V7 →
        TwoPage.calculatePH_piecewise (TwoPage.saveTwoLines V4 V7 V9 g).cal v =
          (TwoPage.saveTwoLines V4 V7 V9 g).cal.mLow * v +
            (TwoPage.saveTwoLines V4 V7 V9 g).cal.bLow) ∧
      (V7 < v →
        TwoPage.calculatePH_piecewise (TwoPage.saveTwoLines V4 V7 V9 g).cal v =
          (TwoPage.saveTwoLines V4 V7 V9 g).cal.mHigh * v +
            (TwoPage.saveTwoLines V4 V7 V9 g).cal.bHigh)) := by
  refine ⟨rfl, rfl, ?_, ?_⟩
  · intro hdir
    have hd : decide (V7 < V4) = true := decide_eq_true hdir
    constructor
    · intro hle
      simp [TwoPage.calculatePH_piecewise, TwoPage.saveTwoLines, hd, hle]
    · intro hlt
      simp [TwoPage.calculatePH_piecewise, TwoPage.saveTwoLines, hd,
            not_le.mpr hlt]
  · intro hdir
    have hd : decide (V7 < V4) = false := decide_eq_false (lt_asymm hdir)
    constructor
    · intro hle
      simp [TwoPage.calculatePH_piecewise, TwoPage.saveTwoLines, hd, hle]
    · intro hlt
      simp [TwoPage.calculatePH_piecewise, TwoPage.saveTwoLines, hd,
            not_le.mpr hlt]

/-- C1 witness: the reference three-point model (typical direction,
`V4 = 2.6 > V7 = 2.1`) routes `2.3 ≥ 2.1` to the low segment and
`1.9 < 2.1` to the high segment. -/
theorem c1_direction_routing_witness :
    TwoPage.calculatePH_piecewise
        (TwoPage.saveTwoLines (13/5) (21/10) (9/5) TwoPage.initGlobals).cal
        (23/10) =
      (TwoPage.saveTwoLines (13/5) (21/10) (9/5) TwoPage.initGlobals).cal.mLow *
          (23/10) +
        (TwoPage.saveTwoLines (13/5) (21/10) (9/5) TwoPage.initGlobals).cal.bLow ∧
    TwoPage.calculatePH_piecewise
        (TwoPage.saveTwoLines (13/5) (21/10) (9/5) TwoPage.initGlobals).cal
        (19/10) =
      (TwoPage.saveTwoLines (13/5) (21/10) (9/5) TwoPage.initGlobals).cal.mHigh *
          (19/10) +
        (TwoPage.saveTwoLines (13/5) (21/10) (9/5) TwoPage.initGlobals).cal.bHigh :=
  ⟨((c1_direction_routing (13/5) (21/10) (9/5) (23/10)
        TwoPage.initGlobals).2.2.1 (by norm_num)).1 (by norm_num),
   ((c1_direction_routing (13/5) (21/10) (9/5) (19/10)
        TwoPage.initGlobals).2.2.1 (by norm_num)).2 (by norm_num)⟩

/-- C8: the smoother seeded from the `NAN` sentinel returns its input
exactly on the first update; a seeded smoother returns
`prior + MAIN_ALPHA * (raw - prior)`; and every successful fit operation
(`handleSetCal2` / `handleSetCal3`) resets the smoother state to the
sentinel, so the next update re-seeds and again returns its input. -/
theorem c8_smoother_seed_and_reset (x p V4 V7 W4 W7 W9 : ℚ)
    (g h : TwoPage.Globals)
    (h2 : (TwoPage.handleSetCal2 V4 V7 g).1 = CalResp.ok)
    (h3 : (TwoPage.handleSetCal3 W4 W7 W9 h).1 = CalResp.ok) :
    (TwoPage.smootherUpdate none x).1 = x ∧
    (TwoPage.smootherUpdate (some p) x).1 = p + MAIN_ALPHA * (x - p) ∧
    (TwoPage.handleSetCal2 V4 V7 g).2.filtV_main = none ∧
    (TwoPage.handleSetCal3 W4 W7 W9 h).2.filtV_main = none ∧
    (TwoPage.smootherUpdate ((TwoPage.handleSetCal2 V4 V7 g).2.filtV_main) x).1
      = x := by
  have e1 : (TwoPage.smootherUpdate none x).1 = x := by
    simp [TwoPage.smootherUpdate]
  have e3 : (TwoPage.handleSetCal2 V4 V7 g).2.filtV_main = none := by
    unfold TwoPage.handleSetCal2 at h2 ⊢
    split_ifs at h2 ⊢ <;> simp_all [TwoPage.saveOneLine]
  have e4 : (TwoPage.handleSetCal3 W4 W7 W9 h).2.filtV_main = none := by
    unfold TwoPage.handleSetCal3 at h3 ⊢
    split_ifs at h3 ⊢ <;> simp_all [TwoPage.saveTwoLines]
  refine ⟨e1, by simp [TwoPage.smootherUpdate], e3, e4, ?_⟩
  rw [e3]
  exact e1

/-- C8 witness: the reference two-point fit succeeds, clears the
smoother, and the next update returns its input exactly. -/
theorem c8_smoother_seed_and_reset_witness :
    (TwoPage.smootherUpdate none 5).1 = 5 ∧
    (TwoPage.smootherUpdate (some 3) 5).1 = 3 + MAIN_ALPHA * (5 - 3) ∧
    (TwoPage.handleSetCal2 (13/5) (21/10) TwoPage.initGlobals).2.filtV_main
      = none ∧
    (TwoPage.handleSetCal3 (13/5) (21/10) (9/5)
        TwoPage.initGlobals).2.filtV_main = none ∧
    (TwoPage.smootherUpdate
        ((TwoPage.handleSetCal2 (13/5) (21/10)
            TwoPage.initGlobals).2.filtV_main) 5).1 = 5 :=
  c8_smoother_seed_and_reset 5 3 (13/5) (21/10) (13/5) (21/10) (9/5)
    TwoPage.initGlobals TwoPage.initGlobals
    (by norm_num [TwoPage.handleSetCal2, abs_lt])
    (by norm_num [TwoPage.handleSetCal3, abs_lt])

/-- C4: a rejected fit operation (two-point or three-point, rejected for
a non-positive voltage or voltages closer than 0.01 V) leaves the whole
global state — active model, persistent store and smoother — unchanged;
in particular `handleSetCal2 2.100 2.105` (difference 0.005 < 0.01)
fails with `DegenerateFit` and changes nothing. -/
theorem c4_rejected_fit_preserves_state (V4 V7 W4 W7 W9 : ℚ)
    (g h : TwoPage.Globals) (e e2 : FitError)
    (h2 : (TwoPage.handleSetCal2 V4 V7 g).1 = CalResp.err e)
    (h3 : (TwoPage.handleSetCal3 W4 W7 W9 h).1 = CalResp.err e2) :
    (TwoPage.handleSetCal2 V4 V7 g).2 = g ∧
    (TwoPage.handleSetCal3 W4 W7 W9 h).2 = h ∧
    TwoPage.handleSetCal2 (21/10) (421/200) g =
      (CalResp.err FitError.DegenerateFit, g) := by
  refine ⟨?_, ?_, ?_⟩
  · unfold TwoPage.handleSetCal2 at h2 ⊢
    split_ifs at h2 ⊢ <;> simp_all
  · unfold TwoPage.handleSetCal3 at h3 ⊢
    split_ifs at h3 ⊢ <;> simp_all
  · norm_num [TwoPage.handleSetCal2, abs_lt]

/-- C4 witness: concrete rejected fits (`InvalidInput` on a zero voltage
for the two-point fit, `DegenerateFit` on equal voltages for the
three-point fit) leave the fresh-boot globals intact, and the
`2.100 / 2.105` fit fails with `DegenerateFit`. -/
theorem c4_rejected_fit_preserves_state_witness :
    (TwoPage.handleSetCal2 0 1 TwoPage.initGlobals).2 =
      TwoPage.initGlobals ∧
    (TwoPage.handleSetCal3 1 1 1 TwoPage.initGlobals).2 =
      TwoPage.initGlobals ∧
    TwoPage.handleSetCal2 (21/10) (421/200) TwoPage.initGlobals =
      (CalResp.err FitError.DegenerateFit, TwoPage.initGlobals) :=
  c4_rejected_fit_preserves_state 0 1 1 1 1
    TwoPage.initGlobals TwoPage.initGlobals
    FitError.InvalidInput FitError.DegenerateFit
    (by norm_num [TwoPage.handleSetCal2])
    (by norm_num [TwoPage.handleSetCal3, abs_lt])

end PHFirmware

namespace PHFirmware

/-- C2: for every valid three-point input (positive voltages, pairwise at
least 0.01 V apart), the piecewise model built by `saveTwoLines` has its
low and high segments agree at the breakpoint voltage `V7`, both
evaluating to pH 7.00 within `1e-4` (the piecewise evaluation at the
breakpoint included), and the high segment evaluates `V9` to pH 9.18
within `1e-4`. -/
theorem c2_three_point_piecewise_fit (V4 V7 V9 : ℚ) (g : TwoPage.Globals)
    (hp4 : 0 < V4) (hp7 : 0 < V7) (hp9 : 0 < V9)
    (hd47 : 1/100 ≤ |V4 - V7|) (hd97 : 1/100 ≤ |V9 - V7|)
    (hd94 : 1/100 ≤ |V9 - V4|) :
    |(TwoPage.saveTwoLines V4 V7 V9 g).cal.mLow *
        (TwoPage.saveTwoLines V4 V7 V9 g).cal.v7_break +
      (TwoPage.saveTwoLines V4 V7 V9 g).cal.bLow - PH7| ≤ 1/10000 ∧
    |(TwoPage.saveTwoLines V4 V7 V9 g).cal.mHigh *
        (TwoPage.saveTwoLines V4 V7 V9 g).cal.v7_break +
      (TwoPage.saveTwoLines V4 V7 V9 g).cal.bHigh - PH7| ≤ 1/10000 ∧
    |TwoPage.calculatePH_piecewise (TwoPage.saveTwoLines V4 V7 V9 g).cal
        (TwoPage.saveTwoLines V4 V7 V9 g).cal.v7_break - PH7| ≤ 1/10000 ∧
    |(TwoPage.saveTwoLines V4 V7 V9 g).cal.mHigh * V9 +
      (TwoPage.saveTwoLines V4 V7 V9 g).cal.bHigh - PH9| ≤ 1/10000 := by
  have hne97 : V7 - V9 ≠ 0 := by
    intro h0
    have h1 : V9 - V7 = 0 := by linarith
    rw [h1, abs_zero] at hd97
    norm_num at hd97
  have hcal : (TwoPage.saveTwoLines V4 V7 V9 g).cal =
      { useTwoLines := true
        typicalDirection := decide (V7 < V4)
        v7_break := V7
        mLow := (PH4 - PH7) / (V4 - V7)
        bLow := PH7 - (PH4 - PH7) / (V4 - V7) * V7
        mHigh := (PH7 - PH9) / (V7 - V9)
        bHigh := PH7 - (PH7 - PH9) / (V7 - V9) * V7 } := rfl
  rw [hcal]
  dsimp only
  have e1 : (PH4 - PH7) / (V4 - V7) * V7 +
      (PH7 - (PH4 - PH7) / (V4 - V7) * V7) - PH7 = 0 := by ring
  have e2 : (PH7 - PH9) / (V7 - V9) * V7 +
      (PH7 - (PH7 - PH9) / (V7 - V9) * V7) - PH7 = 0 := by ring
  have e3 : (PH7 - PH9) / (V7 - V9) * V9 +
      (PH7 - (PH7 - PH9) / (V7 - V9) * V7) - PH9 = 0 := by
    field_simp
    ring
  have hbp : TwoPage.calculatePH_piecewise
      { useTwoLines := true
        typicalDirection := decide (V7 < V4)
        v7_break := V7
        mLow := (PH4 - PH7) / (V4 - V7)
        bLow := PH7 - (PH4 - PH7) / (V4 - V7) * V7
        mHigh := (PH7 - PH9) / (V7 - V9)
        bHigh := PH7 - (PH7 - PH9) / (V7 - V9) * V7 } V7 =
      (PH4 - PH7) / (V4 - V7) * V7 +
        (PH7 - (PH4 - PH7) / (V4 - V7) * V7) := by
    by_cases hdir : V7 < V4 <;>
      simp [TwoPage.calculatePH_piecewise, hdir]
  refine ⟨?_, ?_, ?_, ?_⟩
  · rw [e1, abs_zero]; norm_num
  · rw [e2, abs_zero]; norm_num
  · rw [hbp, e1, abs_zero]; norm_num
  · rw [e3, abs_zero]; norm_num

/-- C2 witness: the reference inputs `V4 = 2.600`, `V7 = 2.100`,
`V9 = 1.800`: the piecewise evaluation at the breakpoint is pH 7.00
within `1e-4` and the high segment gives pH 9.18 at `1.800`. -/
theorem c2_three_point_piecewise_fit_witness :
    |TwoPage.calculatePH_piecewise
        (TwoPage.saveTwoLines (13/5) (21/10) (9/5) TwoPage.initGlobals).cal
        (TwoPage.saveTwoLines (13/5) (21/10) (9/5)
          TwoPage.initGlobals).cal.v7_break - PH7| ≤ 1/10000 ∧
    |(TwoPage.saveTwoLines (13/5) (21/10) (9/5)
          TwoPage.initGlobals).cal.mHigh * (9/5) +
      (TwoPage.saveTwoLines (13/5) (21/10) (9/5)
          TwoPage.initGlobals).cal.bHigh - PH9| ≤ 1/10000 := by
  have h := c2_three_point_piecewise_fit (13/5) (21/10) (9/5)
    TwoPage.initGlobals (by norm_num) (by norm_num) (by norm_num)
    (by rw [le_abs]; norm_num) (by rw [le_abs]; norm_num)
    (by rw [le_abs]; norm_num)
  exact ⟨h.2.2.1, h.2.2.2⟩

/-- C3: for every valid two-point input (positive voltages at least
0.01 V apart), `saveOneLine` yields a one-line model whose low and high
segments coincide, with `evaluate(V7) = 7.00` and `evaluate(V4) = 4.01`
within `1e-4`; the quadratic-variant two-point handler succeeds on the
same input and its fitted line satisfies the same two evaluations. -/
theorem c3_two_point_fit (V4 V7 : ℚ) (g : TwoPage.Globals)
    (gq : Quad.Globals)
    (h4 : 0 < V4) (h7 : 0 < V7) (hd : 1/100 ≤ |V4 - V7|) :
    (TwoPage.saveOneLine V4 V7 g).cal.useTwoLines = false ∧
    (TwoPage.saveOneLine V4 V7 g).cal.mLow =
      (TwoPage.saveOneLine V4 V7 g).cal.mHigh ∧
    (TwoPage.saveOneLine V4 V7 g).cal.bLow =
      (TwoPage.saveOneLine V4 V7 g).cal.bHigh ∧
    |TwoPage.calculatePH_piecewise (TwoPage.saveOneLine V4 V7 g).cal V7 -
      PH7| ≤ 1/10000 ∧
    |TwoPage.calculatePH_piecewise (TwoPage.saveOneLine V4 V7 g).cal V4 -
      PH4| ≤ 1/10000 ∧
    (Quad.handleSetCal2 V4 V7 gq).1 = CalResp.ok ∧
    |Quad.calculatePH (Quad.handleSetCal2 V4 V7 gq).2.cal V7 - PH7|
      ≤ 1/10000 ∧
    |Quad.calculatePH (Quad.handleSetCal2 V4 V7 gq).2.cal V4 - PH4|
      ≤ 1/10000 := by
  have hne : V4 - V7 ≠ 0 := by
    intro h0
    rw [h0, abs_zero] at hd
    norm_num at hd
  have e4 : (PH4 - PH7) / (V4 - V7) * V4 +
      (PH7 - (PH4 - PH7) / (V4 - V7) * V7) - PH4 = 0 := by
    field_simp
    ring
  have hpos : ¬(V7 ≤ 0 ∨ V4 ≤ 0) := by
    push_neg
    exact ⟨h7, h4⟩
  have hres : Quad.handleSetCal2 V4 V7 gq =
      (CalResp.ok, Quad.saveLinear ((PH4 - PH7) / (V4 - V7))
        (PH7 - (PH4 - PH7) / (V4 - V7) * V7) gq) := by
    unfold Quad.handleSetCal2
    rw [if_neg hpos, if_neg (not_lt.mpr hd)]
  refine ⟨rfl, rfl, rfl, ?_, ?_, ?_, ?_, ?_⟩
  · simp only [TwoPage.calculatePH_piecewise, TwoPage.saveOneLine]
    norm_num
  · simp only [TwoPage.calculatePH_piecewise, TwoPage.saveOneLine]
    norm_num
    rw [e4, abs_zero]
    norm_num
  · rw [hres]
  · rw [hres]
    simp only [Quad.calculatePH, Quad.saveLinear]
    norm_num
  · rw [hres]
    simp only [Quad.calculatePH, Quad.saveLinear]
    norm_num
    rw [e4, abs_zero]
    norm_num

/-- C3 witness: the reference inputs `V4 = 2.600`, `V7 = 2.100`: the
one-line model evaluates `2.100` to pH 7.00 within `1e-4` and the
quadratic-variant two-point handler succeeds. -/
theorem c3_two_point_fit_witness :
    |TwoPage.calculatePH_piecewise
        (TwoPage.saveOneLine (13/5) (21/10) TwoPage.initGlobals).cal
        (21/10) - PH7| ≤ 1/10000 ∧
    (Quad.handleSetCal2 (13/5) (21/10) Quad.initGlobals).1 =
      CalResp.ok := by
  have h := c3_two_point_fit (13/5) (21/10) TwoPage.initGlobals
    Quad.initGlobals (by norm_num) (by norm_num) (by rw [le_abs]; norm_num)
  exact ⟨h.2.2.2.1, h.2.2.2.2.2.1⟩

/-- C9: whenever `solveQuadraticFrom3Points` succeeds, the returned
coefficients make the quadratic pass exactly through the three control
points: `calculatePH` of the resulting quadratic model returns the three
reference pH values at the three supplied voltages (exact equality in
exact arithmetic). -/
theorem c9_lagrange_interpolation (x1 y1 x2 y2 x3 y3 a b c lm lb : ℚ)
    (h : Quad.solveQuadraticFrom3Points x1 y1 x2 y2 x3 y3 = some (a, b, c)) :
    Quad.calculatePH
      { useQuadratic := true, linM := lm, linB := lb,
        qa := a, qb := b, qc := c } x1 = y1 ∧
    Quad.calculatePH
      { useQuadratic := true, linM := lm, linB := lb,
        qa := a, qb := b, qc := c } x2 = y2 ∧
    Quad.calculatePH
      { useQuadratic := true, linM := lm, linB := lb,
        qa := a, qb := b, qc := c } x3 = y3 := by
  simp only [Quad.solveQuadraticFrom3Points] at h
  split_ifs at h with hcond
  push_neg at hcond
  obtain ⟨hd1, hd2, hd3⟩ := hcond
  have hD1 : (x1 - x2) * (x1 - x3) ≠ 0 := by
    intro h0
    rw [h0, abs_zero] at hd1
    norm_num at hd1
  have hD2 : (x2 - x1) * (x2 - x3) ≠ 0 := by
    intro h0
    rw [h0, abs_zero] at hd2
    norm_num at hd2
  have hD3 : (x3 - x1) * (x3 - x2) ≠ 0 := by
    intro h0
    rw [h0, abs_zero] at hd3
    norm_num at hd3
  simp only [Option.some.injEq, Prod.mk.injEq] at h
  obtain ⟨ha, hb, hc⟩ := h
  subst ha hb hc
  have key : ∀ x : ℚ,
      (y1 / ((x1 - x2) * (x1 - x3)) + y2 / ((x2 - x1) * (x2 - x3)) +
          y3 / ((x3 - x1) * (x3 - x2))) * x * x +
        -(y1 / ((x1 - x2) * (x1 - x3)) * (x2 + x3) +
            y2 / ((x2 - x1) * (x2 - x3)) * (x1 + x3) +
            y3 / ((x3 - x1) * (x3 - x2)) * (x1 + x2)) * x +
        (y1 / ((x1 - x2) * (x1 - x3)) * (x2 * x3) +
          y2 / ((x2 - x1) * (x2 - x3)) * (x1 * x3) +
          y3 / ((x3 - x1) * (x3 - x2)) * (x1 * x2)) =
      y1 / ((x1 - x2) * (x1 - x3)) * ((x - x2) * (x - x3)) +
        y2 / ((x2 - x1) * (x2 - x3)) * ((x - x1) * (x - x3)) +
        y3 / ((x3 - x1) * (x3 - x2)) * ((x - x1) * (x - x2)) := by
    intro x
    ring
  refine ⟨?_, ?_, ?_⟩
  · show _ = y1
    simp only [Quad.calculatePH, if_true]
    rw [key x1]
    simp [sub_self, div_mul_cancel₀ _ hD1]
  · show _ = y2
    simp only [Quad.calculatePH, if_true]
    rw [key x2]
    simp [sub_self, div_mul_cancel₀ _ hD2]
  · show _ = y3
    simp only [Quad.calculatePH, if_true]
    rw [key x3]
    simp [sub_self, div_mul_cancel₀ _ hD3]

/-- C9 witness: the reference control points `(2.600, 4.01)`,
`(2.100, 7.00)`, `(1.800, 9.18)` give the concrete coefficients
`a = 193/120`, `b = -16247/1200`, `c = 56679/2000`, and the quadratic
passes exactly through all three points. -/
theorem c9_lagrange_interpolation_witness :
    Quad.calculatePH
      { useQuadratic := true, linM := 0, linB := 0,
        qa := 193/120, qb := -16247/1200, qc := 56679/2000 } (13/5) = PH4 ∧
    Quad.calculatePH
      { useQuadratic := true, linM := 0, linB := 0,
        qa := 193/120, qb := -16247/1200, qc := 56679/2000 } (21/10) = PH7 ∧
    Quad.calculatePH
      { useQuadratic := true, linM := 0, linB := 0,
        qa := 193/120, qb := -16247/1200, qc := 56679/2000 } (9/5) = PH9 :=
  c9_lagrange_interpolation (13/5) PH4 (21/10) PH7 (9/5) PH9
    (193/120) (-16247/1200) (56679/2000) 0 0
    (by norm_num [Quad.solveQuadraticFrom3Points, PH4, PH7, PH9, abs_lt])

end PHFirmware

namespace PHFirmware

/-- C5 (amended): the quadratic-variant fit handlers classify invalid
inputs in the order the code checks them: any non-positive voltage gives
`InvalidInput`; with positive voltages, any pair closer than 0.01 V gives
`DegenerateFit`; `solveQuadraticFrom3Points` rejects (reported as
`SingularFit` by the handler) exactly when an interpolation denominator
is within `1e-9` of zero, in particular whenever two control points share
a voltage; but once the 0.01 V pairwise check passes the solver never
rejects, so a three-point request whose points include two identical
voltages is classified `DegenerateFit`, not `SingularFit`. -/
theorem c5_error_classification (v4 v7 v9 w4 w7 x1 y1 x2 y2 x3 y3 : ℚ)
    (g g2 : Quad.Globals) :
    ((w7 ≤ 0 ∨ w4 ≤ 0) →
      (Quad.handleSetCal2 w4 w7 g2).1 = CalResp.err FitError.InvalidInput) ∧
    ((v7 ≤ 0 ∨ v4 ≤ 0 ∨ v9 ≤ 0) →
      (Quad.handleSetCal3 v4 v7 v9 g).1 = CalResp.err FitError.InvalidInput) ∧
    (0 < w4 → 0 < w7 → |w4 - w7| < 1/100 →
      (Quad.handleSetCal2 w4 w7 g2).1 = CalResp.err FitError.DegenerateFit) ∧
    (0 < v4 → 0 < v7 → 0 < v9 →
      (|v4 - v7| < 1/100 ∨ |v9 - v7| < 1/100 ∨ |v9 - v4| < 1/100) →
      (Quad.handleSetCal3 v4 v7 v9 g).1 = CalResp.err FitError.DegenerateFit) ∧
    ((x1 = x2 ∨ x1 = x3 ∨ x2 = x3) →
      Quad.solveQuadraticFrom3Points x1 y1 x2 y2 x3 y3 = none) ∧
    (1/100 ≤ |v4 - v7| → 1/100 ≤ |v9 - v7| → 1/100 ≤ |v9 - v4| →
      Quad.solveQuadraticFrom3Points v4 PH4 v7 PH7 v9 PH9 ≠ none) ∧
    (0 < v4 → 0 < v7 →
      (Quad.handleSetCal3 v4 v7 v4 g).1 = CalResp.err FitError.DegenerateFit) := by
  refine ⟨?_, ?_, ?_, ?_, ?_, ?_, ?_⟩
  · intro hle
    unfold Quad.handleSetCal2
    rw [if_pos hle]
  · intro hle
    unfold Quad.handleSetCal3
    rw [if_pos hle]
  · intro h4 h7 hclose
    have hpos : ¬(w7 ≤ 0 ∨ w4 ≤ 0) := by
      push_neg
      exact ⟨h7, h4⟩
    unfold Quad.handleSetCal2
    rw [if_neg hpos, if_pos hclose]
  · intro h4 h7 h9 hclose
    have hpos : ¬(v7 ≤ 0 ∨ v4 ≤ 0 ∨ v9 ≤ 0) := by
      push_neg
      exact ⟨h7, h4, h9⟩
    unfold Quad.handleSetCal3
    rw [if_neg hpos, if_pos hclose]
  · intro hcase
    rcases hcase with h | h | h <;>
      simp [Quad.solveQuadraticFrom3Points, h, sub_self]
  · intro hd1 hd2 hd3
    have e1 : (1:ℚ)/1000000000 ≤ |(v4 - v7) * (v4 - v9)| := by
      rw [abs_mul]
      have h2 : (1:ℚ)/100 ≤ |v4 - v9| := by
        rw [abs_sub_comm]
        exact hd3
      calc (1:ℚ)/1000000000 ≤ (1/100) * (1/100) := by norm_num
        _ ≤ |v4 - v7| * |v4 - v9| :=
            mul_le_mul hd1 h2 (by norm_num) (abs_nonneg _)
    have e2 : (1:ℚ)/1000000000 ≤ |(v7 - v4) * (v7 - v9)| := by
      rw [abs_mul]
      have h1 : (1:ℚ)/100 ≤ |v7 - v4| := by
        rw [abs_sub_comm]
        exact hd1
      have h2 : (1:ℚ)/100 ≤ |v7 - v9| := by
        rw [abs_sub_comm]
        exact hd2
      calc (1:ℚ)/1000000000 ≤ (1/100) * (1/100) := by norm_num
        _ ≤ |v7 - v4| * |v7 - v9| :=
            mul_le_mul h1 h2 (by norm_num) (abs_nonneg _)
    have e3 : (1:ℚ)/1000000000 ≤ |(v9 - v4) * (v9 - v7)| := by
      rw [abs_mul]
      calc (1:ℚ)/1000000000 ≤ (1/100) * (1/100) := by norm_num
        _ ≤ |v9 - v4| * |v9 - v7| :=
            mul_le_mul hd3 hd2 (by norm_num) (abs_nonneg _)
    have hnot : ¬(|(v4 - v7) * (v4 - v9)| < 1/1000000000 ∨
        |(v7 - v4) * (v7 - v9)| < 1/1000000000 ∨
        |(v9 - v4) * (v9 - v7)| < 1/1000000000) := by
      push_neg
      exact ⟨e1, e2, e3⟩
    simp only [Quad.solveQuadraticFrom3Points]
    rw [if_neg hnot]
    simp
  · intro h4 h7
    have hpos : ¬(v7 ≤ 0 ∨ v4 ≤ 0 ∨ v4 ≤ 0) := by
      push_neg
      exact ⟨h7, h4, h4⟩
    have hclose : |v4 - v7| < 1/100 ∨ |v4 - v7| < 1/100 ∨
        |v4 - v4| < 1/100 :=
      Or.inr (Or.inr (by rw [sub_self, abs_zero]; norm_num))
    unfold Quad.handleSetCal3
    rw [if_neg hpos, if_pos hclose]

/-- C5 counterexample: the three-point request with control voltages
`2.600, 2.100, 2.600` — two identical voltages, all positive — is
rejected with `DegenerateFit` by the pairwise 0.01 V check, which is a
different error kind from the `SingularFit` the claim requires. -/
theorem c5_identical_voltages_counterexample :
    (Quad.handleSetCal3 (13/5) (21/10) (13/5) Quad.initGlobals).1 =
      CalResp.err FitError.DegenerateFit ∧
    CalResp.err FitError.DegenerateFit ≠ CalResp.err FitError.SingularFit := by
  constructor
  · norm_num [Quad.handleSetCal3, abs_lt]
  · simp

/-- C5 witness: concrete classifications — a non-positive voltage gives
`InvalidInput`; `2.100 / 2.105` gives `DegenerateFit`; the solver rejects
two identical voltages; the solver accepts the reference three-point
input; and a three-point request with two identical voltages gives
`DegenerateFit`. -/
theorem c5_error_classification_witness :
    (Quad.handleSetCal2 1 0 Quad.initGlobals).1 =
      CalResp.err FitError.InvalidInput ∧
    (Quad.handleSetCal2 (21/10) (421/200) Quad.initGlobals).1 =
      CalResp.err FitError.DegenerateFit ∧
    Quad.solveQuadraticFrom3Points 2 5 2 6 3 7 = none ∧
    Quad.solveQuadraticFrom3Points (13/5) PH4 (21/10) PH7 (9/5) PH9 ≠
      none ∧
    (Quad.handleSetCal3 (13/5) (21/10) (13/5) Quad.initGlobals).1 =
      CalResp.err FitError.DegenerateFit := by
  have h1 := c5_error_classification (13/5) (21/10) (9/5) 1 0 2 5 2 6 3 7
    Quad.initGlobals Quad.initGlobals
  have h2 := c5_error_classification (13/5) (21/10) (9/5) (21/10) (421/200)
    2 5 2 6 3 7 Quad.initGlobals Quad.initGlobals
  refine ⟨h1.1 (Or.inl le_rfl),
    h2.2.2.1 (by norm_num) (by norm_num) (by rw [abs_lt]; norm_num),
    h1.2.2.2.2.1 (Or.inl rfl),
    h1.2.2.2.2.2.1 (by rw [le_abs]; norm_num) (by rw [le_abs]; norm_num)
      (by rw [le_abs]; norm_num),
    h1.2.2.2.2.2.2 (by norm_num) (by norm_num)⟩

/-- An `if` tracking a running minimum is the lattice `min`. -/
lemma if_lt_eq_min (a m : ℚ) : (if a < m then a else m) = min m a := by
  rcases lt_or_le a m with h | h
  · rw [if_pos h, min_eq_right (le_of_lt h)]
  · rw [if_neg (not_lt.mpr h), min_eq_left h]

/-- An `if` tracking a running maximum is the lattice `max`. -/
lemma if_lt_eq_max (m a : ℚ) : (if m < a then a else m) = max m a := by
  rcases lt_or_le m a with h | h
  · rw [if_pos h, max_eq_right (le_of_lt h)]
  · rw [if_neg (not_lt.mpr h), max_eq_left h]

/-- The sampling loop decomposes into a running sum, a `min`-fold and a
`max`-fold. -/
lemma trim_fold_spec (l : List ℚ) : ∀ s mn mx : ℚ,
    l.foldl TwoPage.trimStep (s, mn, mx) =
      (s + l.sum, l.foldl min mn, l.foldl max mx) := by
  induction l with
  | nil =>
    intro s mn mx
    simp
  | cons a t ih =>
    intro s mn mx
    have hstep : TwoPage.trimStep (s, mn, mx) a =
        (s + a, min mn a, max mx a) := by
      unfold TwoPage.trimStep
      dsimp only
      rw [if_lt_eq_min, if_lt_eq_max]
    simp only [List.foldl_cons, List.sum_cons, hstep, ih]
    rw [add_assoc]

/-- A `min`-fold never exceeds its initial accumulator. -/
lemma foldl_min_le_init (t : List ℚ) : ∀ i : ℚ, t.foldl min i ≤ i := by
  induction t with
  | nil =>
    intro i
    exact le_refl i
  | cons b t ih =>
    intro i
    calc (b :: t).foldl min i = t.foldl min (min i b) := by
          rw [List.foldl_cons]
      _ ≤ min i b := ih (min i b)
      _ ≤ i := min_le_left i b

/-- A `min`-fold is a lower bound of the list. -/
lemma foldl_min_le_mem (t : List ℚ) :
    ∀ i b : ℚ, b ∈ t → t.foldl min i ≤ b := by
  induction t with
  | nil =>
    intro i b hb
    simp at hb
  | cons c t ih =>
    intro i b hb
    rw [List.foldl_cons]
    rcases List.mem_cons.mp hb with rfl | hb2
    · calc t.foldl min (min i b) ≤ min i b := foldl_min_le_init t (min i b)
        _ ≤ b := min_le_right i b
    · exact ih (min i c) b hb2

/-- A `max`-fold is at least its initial accumulator. -/
lemma foldl_max_init_le (t : List ℚ) : ∀ i : ℚ, i ≤ t.foldl max i := by
  induction t with
  | nil =>
    intro i
    exact le_refl i
  | cons b t ih =>
    intro i
    calc i ≤ max i b := le_max_left i b
      _ ≤ t.foldl max (max i b) := ih (max i b)
      _ = (b :: t).foldl max i := by rw [List.foldl_cons]

/-- A `max`-fold is an upper bound of the list. -/
lemma foldl_max_mem_le (t : List ℚ) :
    ∀ i b : ℚ, b ∈ t → b ≤ t.foldl max i := by
  induction t with
  | nil =>
    intro i b hb
    simp at hb
  | cons c t ih =>
    intro i b hb
    rw [List.foldl_cons]
    rcases List.mem_cons.mp hb with rfl | hb2
    · calc b ≤ max i b := le_max_right i b
        _ ≤ t.foldl max (max i b) := foldl_max_init_le t (max i b)
    · exact ih (max i c) b hb2

/-- `listMin` of a non-empty list is a lower bound of the list. -/
lemma listMin_le (a : ℚ) (t : List ℚ) :
    ∀ b ∈ a :: t, TwoPage.listMin (a :: t) ≤ b := by
  intro b hb
  simp only [TwoPage.listMin]
  rcases List.mem_cons.mp hb with rfl | hb2
  · exact foldl_min_le_init t b
  · exact foldl_min_le_mem t a b hb2

/-- `listMax` of a non-empty list is an upper bound of the list. -/
lemma le_listMax (a : ℚ) (t : List ℚ) :
    ∀ b ∈ a :: t, b ≤ TwoPage.listMax (a :: t) := by
  intro b hb
  simp only [TwoPage.listMax]
  rcases List.mem_cons.mp hb with rfl | hb2
  · exact foldl_max_init_le t b
  · exact foldl_max_mem_le t a b hb2

/-- C7 (amended): for every `count ≥ 3` and every sequence of raw
readings that lies within the sentinel bounds `±1e9`, the trimmed-mean
sampler returns `(sum - min - max) / (count - 2)`, excluding exactly one
minimum-valued and one maximum-valued entry from the sum even when the
extreme values are duplicated (`listMin` / `listMax` are single values,
subtracted once each). -/
theorem c7_trimmed_mean (l : List ℚ) (hlen : 3 ≤ l.length)
    (hb : ∀ a ∈ l, |a| ≤ 1000000000) :
    TwoPage.readVoltageRawTrimmed l =
      (l.sum - TwoPage.listMin l - TwoPage.listMax l) /
        ((l.length : ℚ) - 2) := by
  cases l with
  | nil => simp at hlen
  | cons a t =>
    have ha := hb a (by simp)
    have ha1 : a ≤ 1000000000 := (abs_le.mp ha).2
    have ha2 : (-1000000000 : ℚ) ≤ a := (abs_le.mp ha).1
    simp only [TwoPage.readVoltageRawTrimmed]
    rw [trim_fold_spec]
    dsimp only
    rw [List.foldl_cons, List.foldl_cons, min_eq_right ha1,
        max_eq_right ha2]
    simp only [TwoPage.listMin, TwoPage.listMax, zero_add]

/-- C7 counterexample: three readings of `2e9` (above the `1e9` min
sentinel) defeat the running-minimum tracking — the sampler returns
`3e9`, not the trimmed mean `(sum - min - max) / (count - 2) = 2e9`. -/
theorem c7_sentinel_counterexample :
    TwoPage.readVoltageRawTrimmed [2000000000, 2000000000, 2000000000] ≠
      (([2000000000, 2000000000, 2000000000] : List ℚ).sum -
        TwoPage.listMin [2000000000, 2000000000, 2000000000] -
        TwoPage.listMax [2000000000, 2000000000, 2000000000]) /
        ((([2000000000, 2000000000, 2000000000] : List ℚ).length : ℚ) -
          2) := by
  norm_num [TwoPage.readVoltageRawTrimmed, TwoPage.trimStep,
    TwoPage.listMin, TwoPage.listMax, List.foldl, min_self, max_self]

/-- C7 witness: the sampler on the concrete sequence `[1, 2, 3]` equals
the trimmed-mean formula. -/
theorem c7_trimmed_mean_witness :
    TwoPage.readVoltageRawTrimmed [1, 2, 3] =
      (([1, 2, 3] : List ℚ).sum - TwoPage.listMin [1, 2, 3] -
        TwoPage.listMax [1, 2, 3]) /
        ((([1, 2, 3] : List ℚ).length : ℚ) - 2) :=
  c7_trimmed_mean [1, 2, 3] (by norm_num)
    (by
      intro a ha
      simp only [List.mem_cons, List.not_mem_nil, or_false] at ha
      rcases ha with rfl | rfl | rfl <;> rw [abs_le] <;> norm_num)

end PHFirmware
